import Mathlib

/-!
Verification of the `avif-serialize` AVIF muxer (`src/lib.rs`).

The crate assembles an ISOBMFF/AVIF container descriptor from already-encoded
AV1 color and (optional) alpha buffers, then serializes it.  `src/lib.rs`
(`Aviffy::write`) builds the full box tree; the helper modules `boxes` and
`writer` hold the plain data-carrier structs and the byte emission.  The
data-carrier structs are reproduced here exactly as `lib.rs` populates them;
the two behaviors that live only in the helper modules (the 1-based property
index returned by `IpcoBox::push`, and the byte-level box emission) are
modelled from the specification and marked as such in their doc comments.

Machine integers (`u8`, `u32`, `usize`) are modelled as `Nat`: the library
performs no arithmetic on them other than the threshold comparisons
`depth_bits >= 10` / `depth_bits >= 12` and taking buffer lengths, so no
wraparound is reachable.  Byte buffers are `List Nat`.
-/

/-- A 4-byte box type tag (`FourCC(*b"av01")` etc.), kept as its ASCII text. -/
structure FourCC where
  val : String
deriving DecidableEq, Repr

/-- Rust `InfeBox`: one item-information entry, as populated in `lib.rs`. -/
structure InfeBox where
  id : Nat
  typ : FourCC
  name : String
deriving DecidableEq, Repr

/-- Rust `IspeBox`: spatial extents (width/height) property. -/
structure IspeBox where
  width : Nat
  height : Nat
deriving DecidableEq, Repr

/-- Rust `Av1CBox`: the AV1 codec-configuration property, fields as in `lib.rs`. -/
structure Av1CBox where
  seq_profile : Nat
  seq_level_idx_0 : Nat
  seq_tier_0 : Bool
  high_bitdepth : Bool
  twelve_bit : Bool
  monochrome : Bool
  chroma_subsampling_x : Bool
  chroma_subsampling_y : Bool
  chroma_sample_position : Nat
deriving DecidableEq, Repr

/-- Rust `PixiBox`: pixel-information property (channel count and depth field). -/
structure PixiBox where
  channels : Nat
  depth : Nat
deriving DecidableEq, Repr

/-- Rust `AuxCBox`: auxiliary-type property (the alpha-plane URN). -/
structure AuxCBox where
  urn : String
deriving DecidableEq, Repr

/-- The closed variant set of properties stored in the `ipco` table. -/
inductive IpcoProp
  | Ispe (b : IspeBox)
  | Av1C (b : Av1CBox)
  | Pixi (b : PixiBox)
  | AuxC (b : AuxCBox)
deriving DecidableEq, Repr

/-- Is this property a codec-configuration (`av1C`) property? -/
def IpcoProp.isAv1C : IpcoProp → Bool
  | .Av1C _ => true
  | _ => false

/-- Rust `IpcoBox`: the shared item-property table. -/
structure IpcoBox where
  props : List IpcoProp
deriving DecidableEq, Repr

/-- Rust `IpcoBox::new()`: the empty property table. -/
def IpcoBox.new : IpcoBox := ⟨[]⟩

/-- Modelled from the spec: the body of `IpcoBox::push` lives in the `boxes`
module, which is not under `src/`.  Spec 4.2: "`push(property) -> index`:
appends a property descriptor to the shared table and returns its 1-based
index; it does not deduplicate".  Returns the grown table and the new
property's 1-based index. -/
def IpcoBox.push (b : IpcoBox) (p : IpcoProp) : IpcoBox × Nat :=
  (⟨b.props ++ [p]⟩, b.props.length + 1)

/-- One property-association entry: an item id and its ordered property
indices, each possibly carrying the essential bit `0x80`. -/
structure IpmaEntry where
  item_id : Nat
  prop_ids : List Nat
deriving DecidableEq, Repr

/-- Location offset; `lib.rs` only ever uses payload-relative offsets. -/
inductive IlocOffset
  | Relative (n : Nat)
deriving DecidableEq, Repr

/-- One contiguous extent of an item inside the payload section. -/
structure IlocExtent where
  offset : IlocOffset
  len : Nat
deriving DecidableEq, Repr

/-- One item-location entry: an item id and its extents. -/
structure IlocItem where
  id : Nat
  extents : List IlocExtent
deriving DecidableEq, Repr

/-- One directed typed reference edge between two item ids. -/
structure IrefEntryBox where
  from_id : Nat
  to_id : Nat
  typ : FourCC
deriving DecidableEq, Repr

/-- Rust `IrefBox`: wraps a single reference entry, as in `lib.rs`. -/
structure IrefBox where
  entry : IrefEntryBox
deriving DecidableEq, Repr

/-- File-type box: major brand, minor version, compatible brands. -/
structure FtypBox where
  major_brand : FourCC
  minor_version : Nat
  compatible_brands : List FourCC
deriving DecidableEq, Repr

/-- Handler box (fixed/empty). -/
structure HdlrBox where
deriving DecidableEq, Repr

/-- Item-information box: the list of item entries. -/
structure IinfBox where
  items : List InfeBox
deriving DecidableEq, Repr

/-- Primary-item box: the primary item's id. -/
structure PitmBox where
  id : Nat
deriving DecidableEq, Repr

/-- Item-location box: the list of location entries. -/
structure IlocBox where
  items : List IlocItem
deriving DecidableEq, Repr

/-- Association table box: the list of per-item association entries. -/
structure IpmaBox where
  entries : List IpmaEntry
deriving DecidableEq, Repr

/-- Item-properties box: property table plus association table. -/
structure IprpBox where
  ipco : IpcoBox
  ipma : IpmaBox
deriving DecidableEq, Repr

/-- Metadata box, children in the order `lib.rs` assembles them. -/
structure MetaBox where
  hdlr : HdlrBox
  iinf : IinfBox
  pitm : PitmBox
  iloc : IlocBox
  iprp : IprpBox
  iref : List IrefBox
deriving DecidableEq, Repr

/-- Payload (`mdat`) box: the ordered raw bitstream chunks. -/
structure MdatBox where
  data_chunks : List (List Nat)
deriving DecidableEq, Repr

/-- The root aggregate `AvifFile`: file-type box, metadata box, payload box. -/
structure AvifFile where
  ftyp : FtypBox
  meta : MetaBox
  mdat : MdatBox
deriving DecidableEq, Repr

/-- The configuration object `Aviffy` (`lib.rs` line 21). -/
structure Aviffy where
  premultiplied_alpha : Bool
deriving DecidableEq, Repr

/-- Rust `Aviffy::new()`: premultiplied alpha defaults to off. -/
def Aviffy.new : Aviffy :=
  { premultiplied_alpha := false }

/-- Rust `Aviffy::premultiplied_alpha(is_premultiplied)`: sets the toggle. -/
def Aviffy.set_premultiplied_alpha (self : Aviffy) (is_premultiplied : Bool) : Aviffy :=
  { self with premultiplied_alpha := is_premultiplied }

/-- The color item's `Av1CBox` literal from `lib.rs` lines 99-109. -/
def colorAv1CBox (high_bitdepth twelve_bit : Bool) : Av1CBox :=
  { seq_profile := if twelve_bit then 2 else 1
    seq_level_idx_0 := 31
    seq_tier_0 := false
    high_bitdepth := high_bitdepth
    twelve_bit := twelve_bit
    monochrome := false
    chroma_subsampling_x := false
    chroma_subsampling_y := false
    chroma_sample_position := 0 }

/-- The alpha item's `Av1CBox` literal from `lib.rs` lines 126-136. -/
def alphaAv1CBox (high_bitdepth twelve_bit : Bool) : Av1CBox :=
  { seq_profile := if twelve_bit then 2 else 0
    seq_level_idx_0 := 31
    seq_tier_0 := false
    high_bitdepth := high_bitdepth
    twelve_bit := twelve_bit
    monochrome := true
    chroma_subsampling_x := true
    chroma_subsampling_y := true
    chroma_sample_position := 0 }

/-- Rust `Aviffy::write` (`lib.rs` lines 78-231) up to the final sink call: builds
the complete `AvifFile` descriptor (`boxes` local variable) from the caller's
inputs.  Every push and field value mirrors the source line by line; byte
emission (`boxes.write(into_output)`) is modelled separately. -/
def Aviffy.buildFile (self : Aviffy) (color_av1_data : List Nat)
    (alpha_av1_data : Option (List Nat)) (width height : Nat)
    (depth_bits : Nat) : AvifFile :=
  let color_image_id : Nat := 1
  let alpha_image_id : Nat := 2
  let high_bitdepth : Bool := decide (10 ≤ depth_bits)
  let twelve_bit : Bool := decide (12 ≤ depth_bits)
  let ESSENTIAL_BIT : Nat := 0x80
  let image_items : List InfeBox :=
    [{ id := color_image_id, typ := ⟨"av01"⟩, name := "" }]
  let ipco := IpcoBox.new
  let (ipco, ispe_prop) := ipco.push (.Ispe { width := width, height := height })
  let (ipco, av1c_prop) := ipco.push (.Av1C (colorAv1CBox high_bitdepth twelve_bit))
  let (ipco, pixi_3) := ipco.push (.Pixi { channels := 3, depth := 8 })
  let ipma_entries : List IpmaEntry :=
    [{ item_id := color_image_id
       prop_ids := [ispe_prop, av1c_prop ||| ESSENTIAL_BIT, pixi_3] }]
  let (ipco, ipma_entries, iloc_items, data_chunks, irefs, image_items) :=
    match alpha_av1_data with
    | some alpha_data =>
      let image_items := image_items ++
        [{ id := alpha_image_id, typ := ⟨"av01"⟩, name := "" }]
      let (ipco, av1c_prop) := ipco.push (.Av1C (alphaAv1CBox high_bitdepth twelve_bit))
      let (ipco, pixi_1) := ipco.push (.Pixi { channels := 1, depth := 8 })
      let (ipco, auxc_prop) := ipco.push
        (.AuxC { urn := "urn:mpeg:mpegB:cicp:systems:auxiliary:alpha" })
      let irefs : List IrefBox :=
        [{ entry := { from_id := alpha_image_id, to_id := color_image_id
                      typ := ⟨"auxl"⟩ } }]
      let irefs := if self.premultiplied_alpha then
          irefs ++ [{ entry := { from_id := color_image_id, to_id := alpha_image_id
                                 typ := ⟨"prem"⟩ } }]
        else irefs
      let ipma_entries := ipma_entries ++
        [{ item_id := alpha_image_id
           prop_ids := [ispe_prop, av1c_prop ||| ESSENTIAL_BIT, auxc_prop, pixi_1] }]
      let iloc_items : List IlocItem :=
        [{ id := color_image_id
           extents := [{ offset := .Relative alpha_data.length
                         len := color_av1_data.length }] },
         { id := alpha_image_id
           extents := [{ offset := .Relative 0
                         len := alpha_data.length }] }]
      let data_chunks : List (List Nat) := [alpha_data, color_av1_data]
      (ipco, ipma_entries, iloc_items, data_chunks, irefs, image_items)
    | none =>
      let iloc_items : List IlocItem :=
        [{ id := color_image_id
           extents := [{ offset := .Relative 0
                         len := color_av1_data.length }] }]
      let data_chunks : List (List Nat) := [color_av1_data]
      (ipco, ipma_entries, iloc_items, data_chunks, ([] : List IrefBox), image_items)
  let compatible_brands : List FourCC := [⟨"mif1"⟩, ⟨"miaf"⟩]
  { ftyp := { major_brand := ⟨"avif"⟩
              minor_version := 0
              compatible_brands := compatible_brands }
    meta := { hdlr := {}
              iinf := { items := image_items }
              pitm := ⟨color_image_id⟩
              iloc := { items := iloc_items }
              iprp := { ipco := ipco
                        ipma := { entries := ipma_entries } }
              iref := irefs }
    mdat := { data_chunks := data_chunks } }

/-- The top-level `serialize` builds the file with a fresh default `Aviffy`
(`lib.rs` lines 40-42); this is its descriptor-construction part. -/
def serialize_buildFile (color_av1_data : List Nat)
    (alpha_av1_data : Option (List Nat)) (width height depth_bits : Nat) : AvifFile :=
  Aviffy.new.buildFile color_av1_data alpha_av1_data width height depth_bits

/-- C1: with both a color and an alpha buffer, the location table has exactly
two entries, each with a single extent: the color item (id 1) at relative
offset `len(A)` with length `len(C)`, the alpha item (id 2) at relative
offset 0 with length `len(A)`; the payload chunks are ordered alpha first,
then color, matching those offsets. -/
theorem iloc_two_item_layout (a : Aviffy) (C A : List Nat) (w h d : Nat) :
    (a.buildFile C (some A) w h d).meta.iloc.items =
      [⟨1, [⟨.Relative A.length, C.length⟩]⟩, ⟨2, [⟨.Relative 0, A.length⟩]⟩] ∧
    (a.buildFile C (some A) w h d).mdat.data_chunks = [A, C] :=
  ⟨rfl, rfl⟩

/-- C2: with no alpha buffer the file has exactly one item (the color item,
id 1), one location entry with a single extent at relative offset 0 and
length `len(C)`, a payload of just the color buffer, and no reference
edges. -/
theorem single_item_no_alpha (a : Aviffy) (C : List Nat) (w h d : Nat) :
    (a.buildFile C none w h d).meta.iinf.items = [⟨1, ⟨"av01"⟩, ""⟩] ∧
    (a.buildFile C none w h d).meta.iloc.items = [⟨1, [⟨.Relative 0, C.length⟩]⟩] ∧
    (a.buildFile C none w h d).mdat.data_chunks = [C] ∧
    (a.buildFile C none w h d).meta.iref = [] :=
  ⟨rfl, rfl, rfl, rfl⟩

/-- C4: with alpha present the reference edges are exactly one `auxl` edge
from the alpha item (id 2) to the color item (id 1), followed by a `prem`
edge from color to alpha if and only if the premultiplied-alpha toggle is
set; the toggle defaults to off in `Aviffy::new` (so the top-level
`serialize`, which uses `Aviffy::new`, emits only the `auxl` edge); with no
alpha buffer there are no reference edges. -/
theorem iref_edges (a : Aviffy) (C A : List Nat) (w h d : Nat) :
    (a.buildFile C (some A) w h d).meta.iref =
      ([⟨⟨2, 1, ⟨"auxl"⟩⟩⟩] ++
        if a.premultiplied_alpha then [⟨⟨1, 2, ⟨"prem"⟩⟩⟩] else []) ∧
    (a.buildFile C none w h d).meta.iref = [] ∧
    Aviffy.new.premultiplied_alpha = false ∧
    (serialize_buildFile C (some A) w h d).meta.iref = [⟨⟨2, 1, ⟨"auxl"⟩⟩⟩] := by
  refine ⟨?_, rfl, rfl, rfl⟩
  cases hp : a.premultiplied_alpha <;> simp [Aviffy.buildFile, hp]

/-- C9: when no alpha buffer is given, the premultiplied-alpha toggle has no
effect: the constructed descriptor is identical for every configuration, so
any deterministic byte emission of it is byte-for-byte identical. -/
theorem premultiplied_no_alpha_invariance (C : List Nat) (w h d : Nat) :
    (Aviffy.mk true).buildFile C none w h d =
      (Aviffy.mk false).buildFile C none w h d ∧
    ∀ emit : AvifFile → List Nat,
      emit ((Aviffy.mk true).buildFile C none w h d) =
        emit ((Aviffy.mk false).buildFile C none w h d) :=
  ⟨rfl, fun _ => rfl⟩

/-- C10: `depth_bits` influences the construction only through the two
threshold tests `depth_bits >= 10` and `depth_bits >= 12`: any two depth
values agreeing on both thresholds produce the same file (e.g. 9 behaves as
8, and 11 as 10); every depth value is accepted, `buildFile` being total. -/
theorem depth_threshold_equivalence (a : Aviffy) (C : List Nat)
    (al : Option (List Nat)) (w h d d' : Nat)
    (h10 : 10 ≤ d ↔ 10 ≤ d') (h12 : 12 ≤ d ↔ 12 ≤ d') :
    a.buildFile C al w h d = a.buildFile C al w h d' := by
  have e10 : decide (10 ≤ d) = decide (10 ≤ d') := by
    simp only [decide_eq_decide]; exact h10
  have e12 : decide (12 ≤ d) = decide (12 ≤ d') := by
    simp only [decide_eq_decide]; exact h12
  simp only [Aviffy.buildFile, e10, e12]

/-- Witness for C10 at depth 9 versus depth 8. -/
theorem depth_threshold_equivalence_witness :
    ((10 ≤ 9 ↔ 10 ≤ 8) ∧ (12 ≤ 9 ↔ 12 ≤ 8)) ∧
    Aviffy.new.buildFile [1, 2] (some [3]) 4 5 9 =
      Aviffy.new.buildFile [1, 2] (some [3]) 4 5 8 :=
  ⟨by decide, depth_threshold_equivalence Aviffy.new [1, 2] (some [3]) 4 5 9 8
    (by decide) (by decide)⟩

/-- The 1-based property index carried by a packed association value: the
spec packs the index with the essential flag at the high bit, so the index
is the value with bit 7 stripped. -/
def propIndexOf (p : Nat) : Nat := p % 128

/-- Does the packed association value `p` point at a codec-configuration
property of the table `props`? (`props` is 0-indexed, indices 1-based.) -/
def isAv1CAt (props : List IpcoProp) (p : Nat) : Bool :=
  match props.get? (propIndexOf p - 1) with
  | some q => q.isAv1C
  | none => false

/-- The association entries built without an alpha buffer. -/
lemma ipma_entries_none (a : Aviffy) (C : List Nat) (w h d : Nat) :
    (a.buildFile C none w h d).meta.iprp.ipma.entries = [⟨1, [1, 130, 3]⟩] := by
  simp [Aviffy.buildFile, IpcoBox.push, IpcoBox.new]

/-- The association entries built with an alpha buffer. -/
lemma ipma_entries_some (a : Aviffy) (C A : List Nat) (w h d : Nat) :
    (a.buildFile C (some A) w h d).meta.iprp.ipma.entries =
      [⟨1, [1, 130, 3]⟩, ⟨2, [1, 132, 6, 5]⟩] := by
  simp [Aviffy.buildFile, IpcoBox.push, IpcoBox.new]

/-- The property table built without an alpha buffer. -/
lemma ipco_props_none (a : Aviffy) (C : List Nat) (w h d : Nat) :
    (a.buildFile C none w h d).meta.iprp.ipco.props =
      [.Ispe ⟨w, h⟩, .Av1C (colorAv1CBox (decide (10 ≤ d)) (decide (12 ≤ d))),
       .Pixi ⟨3, 8⟩] := rfl

/-- The property table built with an alpha buffer. -/
lemma ipco_props_some (a : Aviffy) (C A : List Nat) (w h d : Nat) :
    (a.buildFile C (some A) w h d).meta.iprp.ipco.props =
      [.Ispe ⟨w, h⟩, .Av1C (colorAv1CBox (decide (10 ≤ d)) (decide (12 ≤ d))),
       .Pixi ⟨3, 8⟩, .Av1C (alphaAv1CBox (decide (10 ≤ d)) (decide (12 ≤ d))),
       .Pixi ⟨1, 8⟩, .AuxC ⟨"urn:mpeg:mpegB:cicp:systems:auxiliary:alpha"⟩] := rfl

/-- C3: in every constructed file, a packed property-association value has
the essential bit (bit 7) set exactly when the property-table slot it points
at is a codec-configuration property; so the spatial-extent,
pixel-information and auxiliary-type indices are never marked essential. -/
theorem essential_bit_only_av1c (a : Aviffy) (C : List Nat)
    (al : Option (List Nat)) (w h d : Nat) (e : IpmaEntry)
    (he : e ∈ (a.buildFile C al w h d).meta.iprp.ipma.entries)
    (p : Nat) (hp : p ∈ e.prop_ids) :
    Nat.testBit p 7 = isAv1CAt (a.buildFile C al w h d).meta.iprp.ipco.props p := by
  cases al with
  | none =>
    rw [ipma_entries_none] at he
    rw [ipco_props_none]
    simp only [List.mem_singleton] at he
    subst he
    simp only [List.mem_cons, List.not_mem_nil, or_false] at hp
    rcases hp with rfl | rfl | rfl <;>
      simp [isAv1CAt, propIndexOf, IpcoProp.isAv1C] <;> decide
  | some A =>
    rw [ipma_entries_some] at he
    rw [ipco_props_some]
    simp only [List.mem_cons, List.not_mem_nil, or_false] at he
    rcases he with rfl | rfl <;> simp only [List.mem_cons, List.not_mem_nil, or_false] at hp
    · rcases hp with rfl | rfl | rfl <;>
        simp [isAv1CAt, propIndexOf, IpcoProp.isAv1C] <;> decide
    · rcases hp with rfl | rfl | rfl | rfl <;>
        simp [isAv1CAt, propIndexOf, IpcoProp.isAv1C] <;> decide

/-- Witness for C3: the alpha item's packed codec-configuration index 132
(`4 | 0x80`) in a concrete file. -/
theorem essential_bit_only_av1c_witness :
    ((⟨2, [1, 132, 6, 5]⟩ : IpmaEntry) ∈
        (Aviffy.new.buildFile [1] (some [2]) 3 4 8).meta.iprp.ipma.entries ∧
      (132 : Nat) ∈ ([1, 132, 6, 5] : List Nat)) ∧
    Nat.testBit 132 7 =
      isAv1CAt (Aviffy.new.buildFile [1] (some [2]) 3 4 8).meta.iprp.ipco.props 132 :=
  ⟨⟨by decide, by decide⟩,
    essential_bit_only_av1c Aviffy.new [1] (some [2]) 3 4 8 ⟨2, [1, 132, 6, 5]⟩
      (by decide) 132 (by decide)⟩

/-- The color item's codec-configuration property, stored at 1-based index 2
of the property table. -/
def colorAv1CIn (f : AvifFile) : Option Av1CBox :=
  match f.meta.iprp.ipco.props.get? 1 with
  | some (.Av1C b) => some b
  | _ => none

/-- The alpha item's codec-configuration property, stored at 1-based index 4
of the property table when alpha is present. -/
def alphaAv1CIn (f : AvifFile) : Option Av1CBox :=
  match f.meta.iprp.ipco.props.get? 3 with
  | some (.Av1C b) => some b
  | _ => none

/-- C5: the codec-configuration flags derive from `depth_bits` by thresholds:
high bit depth iff depth >= 10, twelve bit iff depth >= 12, and depth >= 12
selects a different profile (2 instead of 1 for color, 2 instead of 0 for
alpha); the alpha configuration is always monochrome with both chroma
subsampling flags set, the color one never monochrome with both clear. -/
theorem av1c_depth_flags (a : Aviffy) (C A : List Nat)
    (al : Option (List Nat)) (w h d : Nat) :
    (∃ cb, colorAv1CIn (a.buildFile C al w h d) = some cb ∧
      (cb.high_bitdepth = true ↔ 10 ≤ d) ∧ (cb.twelve_bit = true ↔ 12 ≤ d) ∧
      cb.seq_profile = (if 12 ≤ d then 2 else 1) ∧
      cb.monochrome = false ∧ cb.chroma_subsampling_x = false ∧
      cb.chroma_subsampling_y = false) ∧
    (∃ ab, alphaAv1CIn (a.buildFile C (some A) w h d) = some ab ∧
      (ab.high_bitdepth = true ↔ 10 ≤ d) ∧ (ab.twelve_bit = true ↔ 12 ≤ d) ∧
      ab.seq_profile = (if 12 ≤ d then 2 else 0) ∧
      ab.monochrome = true ∧ ab.chroma_subsampling_x = true ∧
      ab.chroma_subsampling_y = true) := by
  constructor
  · refine ⟨colorAv1CBox (decide (10 ≤ d)) (decide (12 ≤ d)), ?_, ?_, ?_, ?_, rfl, rfl, rfl⟩
    · cases al <;> rfl
    · simp [colorAv1CBox]
    · simp [colorAv1CBox]
    · simp [colorAv1CBox]
  · refine ⟨alphaAv1CBox (decide (10 ≤ d)) (decide (12 ≤ d)), rfl, ?_, ?_, ?_, rfl, rfl, rfl⟩
    · simp [alphaAv1CBox]
    · simp [alphaAv1CBox]
    · simp [alphaAv1CBox]

/-- C6: the property table is exactly: one spatial-extent property (the given
width/height) stored once at index 1 and associated with both items, one
codec-configuration property per item, one pixel-information property per
item (3 channels for color, 1 for alpha, depth field 8 whatever `depth_bits`
is), and an auxiliary-type alpha property only when alpha is present. -/
theorem property_table_contents (a : Aviffy) (C A : List Nat) (w h d : Nat) :
    (a.buildFile C none w h d).meta.iprp.ipco.props =
      [.Ispe ⟨w, h⟩, .Av1C (colorAv1CBox (decide (10 ≤ d)) (decide (12 ≤ d))),
       .Pixi ⟨3, 8⟩] ∧
    (a.buildFile C none w h d).meta.iprp.ipma.entries = [⟨1, [1, 130, 3]⟩] ∧
    (a.buildFile C (some A) w h d).meta.iprp.ipco.props =
      [.Ispe ⟨w, h⟩, .Av1C (colorAv1CBox (decide (10 ≤ d)) (decide (12 ≤ d))),
       .Pixi ⟨3, 8⟩, .Av1C (alphaAv1CBox (decide (10 ≤ d)) (decide (12 ≤ d))),
       .Pixi ⟨1, 8⟩, .AuxC ⟨"urn:mpeg:mpegB:cicp:systems:auxiliary:alpha"⟩] ∧
    (a.buildFile C (some A) w h d).meta.iprp.ipma.entries =
      [⟨1, [1, 130, 3]⟩, ⟨2, [1, 132, 6, 5]⟩] :=
  ⟨ipco_props_none a C w h d, ipma_entries_none a C w h d,
    ipco_props_some a C A w h d, ipma_entries_some a C A w h d⟩

/-- A 32-bit big-endian length field, byte by byte. -/
def be32 (n : Nat) : List Nat :=
  [n / 2 ^ 24 % 256, n / 2 ^ 16 % 256, n / 2 ^ 8 % 256, n % 256]

/-- The four ASCII bytes of a box type tag. -/
def FourCC.bytes (t : FourCC) : List Nat := t.val.toList.map Char.toNat

/-- Modelled from the spec: the size computation of `MdatBox` lives in the
`boxes`/`writer` modules, which are not under `src/`.  Spec 3: "a box's
declared size field equals 8 (or 16 for 64-bit size) plus the exact byte
length of its serialized payload/children"; the payload box's contents are
the concatenated raw buffers, so its declared size is 8 plus the sum of the
buffer lengths. -/
def MdatBox.declaredSize (m : MdatBox) : Nat :=
  8 + (m.data_chunks.map List.length).sum

/-- Modelled from the spec: the byte emission of `MdatBox` lives in the
`writer` module, which is not under `src/`.  Spec 6: "All box sizes are
explicit 32-bit big-endian length fields covering the box's own header and
contents"; a box is its size field, its 4-byte type tag, then its contents;
the payload box's contents are the concatenated raw bitstream buffers. -/
def MdatBox.serialize (m : MdatBox) : List Nat :=
  be32 m.declaredSize ++ FourCC.bytes ⟨"mdat"⟩ ++ m.data_chunks.flatten

/-- C8 counterexample: the payload box's declared size field is not the sum
of the buffer lengths — for the file built from a 3-byte color buffer and no
alpha it is 11 (8-byte box header plus 3), not 3. -/
theorem mdat_size_counterexample :
    ¬ (Aviffy.new.buildFile [1, 2, 3] none 10 20 8).mdat.declaredSize =
        (((Aviffy.new.buildFile [1, 2, 3] none 10 20 8).mdat.data_chunks.map
          List.length).sum) := by decide

/-- C8 (amended): the payload box holds the raw buffers concatenated in the
order chosen during location-table construction (alpha first when present),
and its declared 32-bit size field equals 8 — its own header — plus the sum
of the buffer lengths. -/
theorem mdat_layout (a : Aviffy) (C A : List Nat) (w h d : Nat) :
    (a.buildFile C none w h d).mdat.data_chunks = [C] ∧
    (a.buildFile C (some A) w h d).mdat.data_chunks = [A, C] ∧
    (a.buildFile C none w h d).mdat.declaredSize = 8 + C.length ∧
    (a.buildFile C (some A) w h d).mdat.declaredSize = 8 + (A.length + C.length) ∧
    (a.buildFile C none w h d).mdat.serialize =
      be32 (8 + C.length) ++ FourCC.bytes ⟨"mdat"⟩ ++ C ∧
    (a.buildFile C (some A) w h d).mdat.serialize =
      be32 (8 + (A.length + C.length)) ++ FourCC.bytes ⟨"mdat"⟩ ++ (A ++ C) := by
  refine ⟨rfl, rfl, rfl, rfl, ?_, ?_⟩ <;>
    simp [MdatBox.serialize, MdatBox.declaredSize, Aviffy.buildFile]

/-- Modelled from the spec: the write loop lives in the `writer` module,
which is not under `src/`.  Spec 4.1/7a: the write phase emits the
serialized bytes as sequential writes to the sink; on the first sink failure
the write aborts and the failure propagates; otherwise the final sink state
results. -/
def writeChunks {σ : Type} (sink : σ → List Nat → Option σ) :
    σ → List (List Nat) → Option σ
  | s, [] => some s
  | s, c :: cs =>
    match sink s c with
    | none => none
    | some s2 => writeChunks sink s2 cs

/-- The in-memory `Vec` sink: appending to an owned byte buffer cannot
fail. -/
def vecSink (s : List Nat) (c : List Nat) : Option (List Nat) := some (s ++ c)

/-- Writing any chunk sequence through the `Vec` sink succeeds and appends
the concatenation of the chunks. -/
lemma writeChunks_vecSink_eq (cs : List (List Nat)) (s : List Nat) :
    writeChunks vecSink s cs = some (s ++ cs.flatten) := by
  induction cs generalizing s with
  | nil => simp [writeChunks]
  | cons c cs ih => simp [writeChunks, vecSink, ih]

/-- Rust `Aviffy::to_vec` (`lib.rs` lines 236-240): writes the file into a fresh
in-memory buffer through the `Vec` sink.  The chunk sequence the writer
emits for a file is abstracted as a parameter `emit`, since the byte
emission lives in the `writer` module; the `Option` models the `io::Result`
that `to_vec` unwraps. -/
def Aviffy.to_vec (self : Aviffy) (emit : AvifFile → List (List Nat))
    (color_av1_data : List Nat) (alpha_av1_data : Option (List Nat))
    (width height depth_bits : Nat) : Option (List Nat) :=
  writeChunks vecSink []
    (emit (self.buildFile color_av1_data alpha_av1_data width height depth_bits))

/-- Rust `serialize_to_vec` (`lib.rs` lines 244-246): `Aviffy::new().to_vec(..)`. -/
def serialize_to_vec (emit : AvifFile → List (List Nat)) (color_av1_data : List Nat)
    (alpha_av1_data : Option (List Nat)) (width height depth_bits : Nat) :
    Option (List Nat) :=
  Aviffy.new.to_vec emit color_av1_data alpha_av1_data width height depth_bits

/-- C7: `to_vec` never fails, whatever chunk sequence the writer emits: the
in-memory sink cannot report a write error, so the unwrap's panic branch is
unreachable; with `a := Aviffy.new` this is `serialize_to_vec`. -/
theorem to_vec_never_fails (a : Aviffy) (emit : AvifFile → List (List Nat))
    (C : List Nat) (al : Option (List Nat)) (w h d : Nat) :
    (∃ out, a.to_vec emit C al w h d = some out) ∧
      ∃ out2, serialize_to_vec emit C al w h d = some out2 :=
  ⟨⟨[] ++ (emit (a.buildFile C al w h d)).flatten, writeChunks_vecSink_eq _ []⟩,
    ⟨[] ++ (emit (Aviffy.new.buildFile C al w h d)).flatten, writeChunks_vecSink_eq _ []⟩⟩
